import Mathlib

/-!
Verification development for the GDG_Emails repository.

The Python sources under `src/` are shallowly embedded below.  Python
strings are modelled as `List Char` (named `PyStr`); machine text
operations (`strip`, `split`, `replace`, `in`, `", ".join`) are given
executable Lean counterparts with the semantics of the CPython builtins
they embed.  File-system and network effects are factored out: the
template text is passed as a value, and the SMTP wire interaction is an
explicit outcome datum consumed by the embedded control flow, which is
translated line by line from the source.
-/

/-- Python strings, modelled as lists of characters. -/
abbrev PyStr := List Char

/-- Characters treated as whitespace by Python `str.strip()` /
`str.isspace()` (ASCII range; the exotic unicode space characters are
not exercised by this repository). -/
def pyIsSpaceChar (c : Char) : Bool :=
  c = ' ' || c = '\t' || c = '\n' || c = '\r' || c = '\x0b' || c = '\x0c'

/-- Python `s.strip()`: remove leading and trailing whitespace. -/
def pyStrip (s : PyStr) : PyStr :=
  ((s.dropWhile pyIsSpaceChar).reverse.dropWhile pyIsSpaceChar).reverse

/-- Python substring membership `needle in haystack` (contiguous). -/
def pyInStr : PyStr → PyStr → Bool
  | n, [] => n.isEmpty
  | n, _h :: rest => n.isPrefixOf (_h :: rest) || pyInStr n rest

/-- Fuel-driven core of Python `str.replace` for a non-empty needle:
scan left to right, replacing each non-overlapping occurrence. -/
def replaceAllAux (needle repl : PyStr) : Nat → PyStr → PyStr
  | 0, s => s
  | _ + 1, [] => []
  | fuel + 1, c :: rest =>
    if needle.isPrefixOf (c :: rest) && !needle.isEmpty then
      repl ++ replaceAllAux needle repl fuel ((c :: rest).drop needle.length)
    else
      c :: replaceAllAux needle repl fuel rest

/-- Python `s.replace(needle, repl)` for a non-empty needle (every call
in this repository uses a non-empty needle). -/
def replaceAll (needle repl s : PyStr) : PyStr :=
  replaceAllAux needle repl s.length s

/-- Python `", ".join(xs)`, as used for the To/Cc header values and the
parser echo string. -/
def joinCommaSpace (xs : List PyStr) : PyStr :=
  List.intercalate ", ".data xs

/-! ## src/utils/validators.py -/

/-- Characters of the local-part character class of `EMAIL_PATTERN`
(`[a-zA-Z0-9.!#$%&'*+/=?^_`{|}~-]`, transliterated from the source
regex; the quote, backtick and braces are written with `\x` escapes). -/
def isAtextChar (c : Char) : Bool :=
  c.isAlpha || c.isDigit ||
  c = '.' || c = '!' || c = '#' || c = '$' || c = '%' || c = '&' ||
  c = '\x27' || c = '*' || c = '+' || c = '/' || c = '=' || c = '?' ||
  c = '^' || c = '_' || c = '\x60' || c = '\x7b' || c = '|' ||
  c = '\x7d' || c = '~' || c = '-'

/-- ASCII letters and digits (`[a-zA-Z0-9]` of the source regex). -/
def isAlnumChar (c : Char) : Bool :=
  c.isAlpha || c.isDigit

/-- Characters allowed inside a domain label (`[a-zA-Z0-9-]`). -/
def isLabelChar (c : Char) : Bool :=
  isAlnumChar c || c = '-'

/-- One domain label of `EMAIL_PATTERN`:
`[a-zA-Z0-9](?:[a-zA-Z0-9-]{0,61}[a-zA-Z0-9])?`, i.e. 1 to 63
characters from the label class with alphanumeric first and last
character. -/
def labelOk (lab : PyStr) : Bool :=
  1 ≤ lab.length && lab.length ≤ 63 && lab.all isLabelChar &&
  (match lab.head?, lab.getLast? with
   | some a, some b => isAlnumChar a && isAlnumChar b
   | _, _ => false)

/-- The anchored source regex `EMAIL_PATTERN`: one non-empty run of
local-part characters, a single literal `@`, then at least two
dot-separated domain labels.  Since `@` occurs in neither character
class and `.` is not a label character, the regex decomposition is the
unique split at `@` and at the dots. -/
def emailPatternMatch (s : PyStr) : Bool :=
  match s.splitOn '@' with
  | [localPart, domain] =>
    (!localPart.isEmpty && localPart.all isAtextChar) &&
    (let labels := domain.splitOn '.'
     2 ≤ labels.length && labels.all labelOk)
  | _ => false

/-- Python `email.rsplit("@", 1)` specialised to its use site: split at
the last `@`.  In the source this runs only after the exactly-one-`@`
check, where last = unique occurrence. -/
def rsplitAtSign (s : PyStr) : PyStr × PyStr :=
  (((s.reverse.dropWhile (· ≠ '@')).drop 1).reverse,
   (s.reverse.takeWhile (· ≠ '@')).reverse)

/-- Embeds `is_valid_email` from src/utils/validators.py: empty check,
strip, length window [3,254], exactly one `@`, local-part length
[1,64], domain length at least 3, then the regex match. -/
def is_valid_email (email : PyStr) : Bool :=
  if email.isEmpty then false
  else
    let e := pyStrip email
    if e.length < 3 || 254 < e.length then false
    else if e.count '@' ≠ 1 then false
    else
      let p := rsplitAtSign e
      if 64 < p.1.length || p.1.length < 1 then false
      else if p.2.length < 3 then false
      else emailPatternMatch e

/-- The classification loop of `validate_email_list`: strip each chunk,
skip empties, route by `is_valid_email`, preserving order. -/
def classifyEmails : List PyStr → List PyStr × List PyStr
  | [] => ([], [])
  | chunk :: rest =>
    let e := pyStrip chunk
    let vi := classifyEmails rest
    if e.isEmpty then vi
    else if is_valid_email e then (e :: vi.1, vi.2)
    else (vi.1, e :: vi.2)

/-- Embeds `validate_email_list` from src/utils/validators.py: blank
input yields two empty lists, otherwise split on the separator and
classify each stripped chunk. -/
def validate_email_list (emails : PyStr) (separator : Char) : List PyStr × List PyStr :=
  if emails.isEmpty || (pyStrip emails).isEmpty then ([], [])
  else classifyEmails (emails.splitOn separator)

/-- Embeds `parse_email_input` from src/utils/validators.py (the
separator defaults to a comma). -/
def parse_email_input (email_string : PyStr) : List PyStr × Option PyStr :=
  let vi := validate_email_list email_string ','
  if !vi.2.isEmpty then
    (vi.1, some ("Invalid email(s): ".data ++ joinCommaSpace vi.2))
  else (vi.1, none)

/-- The acceptance condition exactly as the specification words it for
claim C7, applied to an address string directly (no stripping):
exactly one `@`, total length in [3,254], local part length in [1,64],
domain length at least 3, and the atom/label grammar. -/
def claimedEmailCheck (s : PyStr) : Bool :=
  (s.count '@' = 1) &&
  (3 ≤ s.length && s.length ≤ 254) &&
  (let p := rsplitAtSign s
   1 ≤ p.1.length && p.1.length ≤ 64 && 3 ≤ p.2.length) &&
  emailPatternMatch s

/-! ## src/utils/config.py -/

/-- Configured per-file attachment size limit, in MB. -/
def MAX_ATTACHMENT_SIZE_MB : Nat := 25

/-- Round `num / den` to the nearest integer, ties to even (the
rounding CPython applies when formatting a float to a fixed number of
decimals). -/
def roundHalfEven (num den : Nat) : Nat :=
  let q := num / den
  let r := num % den
  if 2 * r < den then q
  else if den < 2 * r then q + 1
  else if q % 2 = 0 then q else q + 1

/-- Embeds the f-string fragment of `validate_attachment_size` that
renders `size_bytes / (1024 * 1024)` with format spec `.1f`.  The
division is exact in double precision whenever `size_bytes < 2 ^ 53`,
and CPython then prints the correctly rounded single decimal, which is
the half-to-even rounding of `size_bytes * 10 / 2 ^ 20` tenths. -/
def fmtMB1dp (size_bytes : Nat) : PyStr :=
  let tenths := roundHalfEven (size_bytes * 10) (1024 * 1024)
  Nat.toDigits 10 (tenths / 10) ++ ['.'] ++ Nat.toDigits 10 (tenths % 10)

/-- Embeds `validate_attachment_size` from src/utils/config.py:
valid iff the byte length does not exceed `25 * 1024 * 1024`, with the
rejection message reporting the size in MB to one decimal and the
configured limit. -/
def validate_attachment_size (size_bytes : Nat) : Bool × Option PyStr :=
  let max_bytes := MAX_ATTACHMENT_SIZE_MB * 1024 * 1024
  if max_bytes < size_bytes then
    (false, some ("File size (".data ++ fmtMB1dp size_bytes ++ "MB) exceeds limit (".data
      ++ Nat.toDigits 10 MAX_ATTACHMENT_SIZE_MB ++ "MB)".data))
  else (true, none)

/-! ## src/email_service/message_builder.py -/

/-- Embeds the `EmailRecipients` dataclass. -/
structure EmailRecipients where
  «to» : List PyStr
  cc : List PyStr
  bcc : List PyStr
deriving DecidableEq

/-- Embeds `EmailRecipients.all_recipients`: the concatenation
`to + cc + bcc`. -/
def EmailRecipients.all_recipients (r : EmailRecipients) : List PyStr :=
  r.to ++ r.cc ++ r.bcc

/-- Embeds `EmailRecipients.has_recipients`:
`bool(self.to or self.cc or self.bcc)`. -/
def EmailRecipients.has_recipients (r : EmailRecipients) : Bool :=
  !r.to.isEmpty || !r.cc.isEmpty || !r.bcc.isEmpty

/-- The number of distinct addresses across to, cc and bcc — the
quantity claim C5 says the success message reports. -/
def distinctRecipientCount (r : EmailRecipients) : Nat :=
  r.all_recipients.dedup.length

/-- Embeds the `Attachment` dataclass; `content` is the raw byte
sequence. -/
structure Attachment where
  filename : PyStr
  content : List Nat
  content_type : Option PyStr := none

/-- A node of the MIME tree assembled by `MessageBuilder.build`.
`filePart` keeps the attachment's explicit `content_type` when given;
`none` stands for the type inferred by the external `mimetypes`
table. -/
inductive MimePart
  | textPart (subtype body : PyStr)
  | filePart (filename : PyStr) (content : List Nat) (contentType : Option PyStr)
  | container (subtype : PyStr) (parts : List MimePart)

/-- Embeds `MessageBuilder.inject_content`: replace the literal token
`\x7b\x7bCONTENT\x7d\x7d`, then each `\x7b\x7bKEY\x7d\x7d` of the
placeholder mapping in order. -/
def inject_content (template content : PyStr) (placeholders : List (PyStr × PyStr)) : PyStr :=
  let html := replaceAll "\x7b\x7bCONTENT\x7d\x7d".data content template
  placeholders.foldl (fun h kv =>
    replaceAll ("\x7b\x7b".data ++ kv.1 ++ "\x7d\x7d".data) kv.2 h) html

/-- Default plain-text alternative used when none is supplied. -/
def defaultPlainTextFallback : PyStr :=
  "This email requires HTML support to view properly.".data

/-- The value `MessageBuilder.build` returns: the chosen top-level
multipart subtype, the headers it sets (in order), and the body
parts. -/
structure BuiltMessage where
  multipartSubtype : PyStr
  headers : List (PyStr × PyStr)
  bodyParts : List MimePart

/-- Embeds `MessageBuilder.build` from src/email_service/message_builder.py.
The template text is passed as a value (file loading belongs to the
external template store).  Headers follow the source order: Subject,
From, To (always, as the `", "`-join of `to`), and Cc only when `cc`
is non-empty; no Bcc header is set.  With attachments the body pair is
nested in a mixed container followed by one part per attachment. -/
def MessageBuilder.build (template sender : PyStr) (recipients : EmailRecipients)
    (subject html_content : PyStr) (placeholders : List (PyStr × PyStr))
    (attachments : List Attachment) (plain_text_fallback : Option PyStr) :
    Except PyStr BuiltMessage :=
  if !recipients.has_recipients then .error "At least one recipient required".data
  else
    let headers :=
      [("Subject".data, subject), ("From".data, sender),
       ("To".data, joinCommaSpace recipients.to)] ++
      (if !recipients.cc.isEmpty then [("Cc".data, joinCommaSpace recipients.cc)] else [])
    let final_html := inject_content template html_content placeholders
    let ptf := plain_text_fallback.getD defaultPlainTextFallback
    let bodyPair := [MimePart.textPart "plain".data ptf, MimePart.textPart "html".data final_html]
    let attachParts :=
      attachments.map (fun a => MimePart.filePart a.filename a.content a.content_type)
    if !attachments.isEmpty then
      .ok { multipartSubtype := "mixed".data,
            headers := headers,
            bodyParts := MimePart.container "alternative".data bodyPair :: attachParts }
    else
      .ok { multipartSubtype := "alternative".data,
            headers := headers, bodyParts := bodyPair }

/-- Headers of a build outcome (empty on a build error). -/
def headersOf (r : Except PyStr BuiltMessage) : List (PyStr × PyStr) :=
  match r with
  | .ok m => m.headers
  | .error _ => []

/-! ## src/email_service/smtp_client.py -/

/-- The possible outcomes of the underlying `smtplib` `sendmail` call,
as distinguished by the `try/except` arms of `SMTPClient.send`:
a normal return carrying the dict of rejected recipients, or one of
the exception classes the source catches.  A rejected/refused entry is
`(address, (code, error))`. -/
inductive SendmailOutcome
  | sent (rejected : List (PyStr × Nat × PyStr))
  | recipientsRefused (recipients : List (PyStr × Nat × PyStr))
  | senderRefused (code : Nat) (smtp_error : PyStr) (sender : PyStr)
  | dataError (code : Nat) (smtp_error : PyStr)
  | otherSMTPException (msg : PyStr)
deriving DecidableEq

/-- The result dict `SMTPClient.send` returns on its non-raising
paths. -/
structure SendResult where
  success : Bool
  message : PyStr
  errors : Option (List (PyStr × Nat × PyStr)) := none
deriving DecidableEq

/-- The success message `f"Email sent successfully to \x7bn\x7d recipient(s)"`,
shared by `SMTPClient.send` and `send_email_robust`. -/
def mkSuccessMsg (n : Nat) : PyStr :=
  "Email sent successfully to ".data ++ Nat.toDigits 10 n ++ " recipient(s)".data

/-- Python `repr` of a list of strings, used in the partial-rejection
message `f"Some recipients rejected: \x7blist(rejected.keys())\x7d"`. -/
def pyReprStrList (xs : List PyStr) : PyStr :=
  '[' :: (List.intercalate ", ".data (xs.map (fun k => '\x27' :: (k ++ ['\x27']))) ++ [']'])

/-- Embeds `SMTPClient.send` from src/email_service/smtp_client.py.
`connected` is the truthiness of `self._connection`; the wire
interaction is summarised by `outcome`.  `.error e` models `raise
SMTPClientError(e)`; `.ok r` models returning the dict `r`. -/
def SMTPClient.send (connected : Bool) (outcome : SendmailOutcome)
    (recipients : List PyStr) : Except PyStr SendResult :=
  if !connected then
    .error "Not connected. Use context manager or call connect() first.".data
  else
    match outcome with
    | .sent rejected =>
      if !rejected.isEmpty then
        .ok { success := false, errors := some rejected,
              message := "Some recipients rejected: ".data
                ++ pyReprStrList (rejected.map (·.1)) }
      else
        .ok { success := true, message := mkSuccessMsg recipients.length }
    | .recipientsRefused rs =>
      .ok { success := false, errors := some rs,
            message := "All recipients were refused".data }
    | .senderRefused _ err _ => .error ("Sender address refused: ".data ++ err)
    | .dataError _ err => .error ("Message data error: ".data ++ err)
    | .otherSMTPException m => .error ("Failed to send email: ".data ++ m)

/-- Send-level soft success flag of a `SMTPClient.send` outcome
(`false` when the call raised). -/
def softSuccess (r : Except PyStr SendResult) : Bool :=
  match r with
  | .ok res => res.success
  | .error _ => false

/-- How the `quit()` call inside `disconnect` behaves on a live
connection: return normally, raise an `smtplib.SMTPException`, or
raise any other exception. -/
inductive QuitBehavior
  | quitOk
  | smtpError (msg : PyStr)
  | otherError (msg : PyStr)
deriving DecidableEq

/-- Embeds `SMTPClient.disconnect`: `connection` is `self._connection`
(`none` when there is no live connection).  The result is the new
`self._connection` — always `none`, because of the `finally` — paired
with the exception escaping the call, if any: the `except
smtplib.SMTPException: pass` arm swallows SMTP protocol errors only,
so any other exception from `quit()` propagates. -/
def SMTPClient.disconnect (connection : Option QuitBehavior) :
    Option QuitBehavior × Option PyStr :=
  match connection with
  | none => (none, none)
  | some .quitOk => (none, none)
  | some (.smtpError _) => (none, none)
  | some (.otherError m) => (none, some m)

/-! ## src/app.py (send_email_robust, delivery loop) -/

/-- Embeds `clean_password = app_password.replace(" ", "")` from
`send_email_robust`. -/
def clean_password (app_password : PyStr) : PyStr :=
  replaceAll " ".data [] app_password

/-- The supplied password with every whitespace character removed —
the normalization claim C6 attributes to the orchestrator. -/
def stripAllWhitespace (p : PyStr) : PyStr :=
  p.filter (fun c => !pyIsSpaceChar c)

/-- What one iteration of the retry loop observes: `client.send`
returned a result dict, or a `SMTPClientError` was raised (by
`connect()` or `send`), or some other exception was raised. -/
inductive AttemptOutcome
  | result (success : Bool) (message : PyStr)
  | smtpClientError (message : PyStr)
  | otherException (message : PyStr)
deriving DecidableEq

/-- The substring `send_email_robust` tests to recognise an
authentication failure. -/
def authFailedNeedle : PyStr := "Authentication failed".data

/-- The terminal failure message
`f"Failed after \x7bmax_retries + 1\x7d attempts: \x7blast_error\x7d"`. -/
def mkFailAfterMsg (attempts : Nat) (lastError : PyStr) : PyStr :=
  "Failed after ".data ++ Nat.toDigits 10 attempts ++ " attempts: ".data ++ lastError

/-- Embeds the `for attempt in range(max_retries + 1)` delivery loop of
`send_email_robust`: `attempts i` is what the i-th attempt observes,
`i` the next attempt index, `fuel` the remaining iterations,
`lastError` the `last_error` accumulator.  The returned `Nat` counts
the attempts actually executed (instrumentation for the retry-policy
claims; the 1-second back-off sleep has no observable effect here). -/
def sendRetryLoop (attempts : Nat → AttemptOutcome) (recipientCount maxRetries : Nat) :
    Nat → Nat → PyStr → (Bool × PyStr) × Nat
  | i, 0, lastError => ((false, mkFailAfterMsg (maxRetries + 1) lastError), i)
  | i, fuel + 1, _lastError =>
    match attempts i with
    | .result true _ => ((true, mkSuccessMsg recipientCount), i + 1)
    | .result false m => sendRetryLoop attempts recipientCount maxRetries (i + 1) fuel m
    | .smtpClientError m =>
      if pyInStr authFailedNeedle m then ((false, m), i + 1)
      else sendRetryLoop attempts recipientCount maxRetries (i + 1) fuel m
    | .otherException m => sendRetryLoop attempts recipientCount maxRetries (i + 1) fuel m

/-- The delivery phase of `send_email_robust`: run the retry loop from
attempt 0 with full budget and empty `last_error`; on a successful
attempt the success message counts `len(recipients.all_recipients())`. -/
def send_email_robust_delivery (attempts : Nat → AttemptOutcome)
    (recipients : EmailRecipients) (maxRetries : Nat) : (Bool × PyStr) × Nat :=
  sendRetryLoop attempts recipients.all_recipients.length maxRetries 0 (maxRetries + 1) []

/-! ## Helper lemmas -/

/-- Python `in`: the empty needle is a substring of everything. -/
theorem pyInStr_nil_left (h : PyStr) : pyInStr [] h = true := by
  cases h <;> simp [pyInStr, List.isPrefixOf, List.isEmpty]

/-- A list is a Boolean prefix of itself followed by anything. -/
theorem isPrefixOf_append_right (l suf : PyStr) : l.isPrefixOf (l ++ suf) = true := by
  induction l with
  | nil => simp [List.isPrefixOf]
  | cons a t ih => simp [List.isPrefixOf, ih]

/-- Python `in` holds for any explicitly embedded occurrence. -/
theorem pyInStr_append_self (n pre suf : PyStr) : pyInStr n (pre ++ (n ++ suf)) = true := by
  induction pre with
  | nil =>
    cases n with
    | nil => simpa using pyInStr_nil_left suf
    | cons a t =>
      rw [List.nil_append]
      show (List.isPrefixOf (a :: t) ((a :: t) ++ suf) || _) = true
      rw [isPrefixOf_append_right, Bool.true_or]
  | cons c pre ih =>
    rw [List.cons_append]
    show (_ || pyInStr n (pre ++ (n ++ suf))) = true
    rw [ih, Bool.or_true]

/-- The checks `is_valid_email` performs coincide with the claimed
characterisation applied to the STRIPPED input. -/
theorem is_valid_email_eq_claimed (s : PyStr) :
    is_valid_email s = claimedEmailCheck (pyStrip s) := by
  by_cases hs : s = []
  · subst hs; decide
  · have hne : s.isEmpty = false := by simp [List.isEmpty_iff, hs]
    unfold is_valid_email claimedEmailCheck
    simp only [hne, Bool.false_eq_true, if_false]
    set e := pyStrip s with he
    split_ifs with h1 h2 h3 h4
    · symm; rw [Bool.eq_false_iff]; intro hcl
      simp only [Bool.or_eq_true, Bool.and_eq_true, decide_eq_true_eq] at hcl h1
      obtain ⟨⟨⟨-, hB⟩, -⟩, -⟩ := hcl
      omega
    · symm; rw [Bool.eq_false_iff]; intro hcl
      simp only [Bool.or_eq_true, Bool.and_eq_true, decide_eq_true_eq] at hcl
      obtain ⟨⟨⟨hA, -⟩, -⟩, -⟩ := hcl
      exact h2 hA
    · symm; rw [Bool.eq_false_iff]; intro hcl
      simp only [Bool.or_eq_true, Bool.and_eq_true, decide_eq_true_eq] at hcl h3
      obtain ⟨⟨⟨-, -⟩, hC⟩, -⟩ := hcl
      omega
    · symm; rw [Bool.eq_false_iff]; intro hcl
      simp only [Bool.or_eq_true, Bool.and_eq_true, decide_eq_true_eq] at hcl
      obtain ⟨⟨⟨-, -⟩, hC⟩, -⟩ := hcl
      omega
    · rw [Bool.eq_iff_iff]
      simp only [Bool.or_eq_true, Bool.and_eq_true, decide_eq_true_eq, not_or] at h1 h3 ⊢
      constructor
      · intro hm
        exact ⟨⟨⟨not_not.mp h2, by omega⟩, by omega⟩, hm⟩
      · rintro ⟨-, hm⟩
        exact hm

/-- The classification loop only ever appends addresses it has just
validated to the valid list. -/
theorem mem_classifyEmails_valid (l : List PyStr) (e : PyStr)
    (h : e ∈ (classifyEmails l).1) : is_valid_email e = true := by
  induction l with
  | nil => simp [classifyEmails] at h
  | cons chunk rest ih =>
    simp only [classifyEmails] at h
    split_ifs at h with hx hv
    · exact ih h
    · rcases List.mem_cons.mp h with rfl | hmem
      · exact hv
      · exact ih hmem
    · exact ih h

/-- Every address in the valid list of `validate_email_list`
re-validates. -/
theorem mem_validate_email_list_valid (s : PyStr) (sep : Char) (e : PyStr)
    (h : e ∈ (validate_email_list s sep).1) : is_valid_email e = true := by
  unfold validate_email_list at h
  split_ifs at h with hb
  · simp at h
  · exact mem_classifyEmails_valid _ _ h

/-- Every address in the valid list of `parse_email_input`
re-validates. -/
theorem mem_parse_email_input_valid (s e : PyStr)
    (h : e ∈ (parse_email_input s).1) : is_valid_email e = true := by
  simp only [parse_email_input] at h
  split_ifs at h <;> exact mem_validate_email_list_valid _ _ _ h

/-- Unfolding equation for one iteration of the delivery retry loop. -/
theorem sendRetryLoop_succ (attempts : Nat → AttemptOutcome) (c mr i fuel : Nat)
    (le : PyStr) :
    sendRetryLoop attempts c mr i (fuel + 1) le =
      match attempts i with
      | .result true _ => ((true, mkSuccessMsg c), i + 1)
      | .result false m => sendRetryLoop attempts c mr (i + 1) fuel m
      | .smtpClientError m =>
        if pyInStr authFailedNeedle m then ((false, m), i + 1)
        else sendRetryLoop attempts c mr (i + 1) fuel m
      | .otherException m => sendRetryLoop attempts c mr (i + 1) fuel m := rfl

/-- Whenever the retry loop reports success, its message is the success
message for the full recipient count it was given. -/
theorem sendRetryLoop_success_msg (attempts : Nat → AttemptOutcome) (c mr : Nat) :
    ∀ (fuel i : Nat) (le : PyStr),
      (sendRetryLoop attempts c mr i fuel le).1.1 = true →
      (sendRetryLoop attempts c mr i fuel le).1.2 = mkSuccessMsg c := by
  intro fuel
  induction fuel with
  | zero => intro i le h; simp [sendRetryLoop] at h
  | succ fuel ih =>
    intro i le h
    rw [sendRetryLoop_succ] at h ⊢
    cases hA : attempts i with
    | result success m =>
      rw [hA] at h
      cases success with
      | true => rfl
      | false => exact ih _ _ h
    | smtpClientError m =>
      rw [hA] at h
      dsimp only at h ⊢
      by_cases hp : pyInStr authFailedNeedle m = true
      · rw [if_pos hp] at h; simp at h
      · rw [if_neg hp] at h ⊢; exact ih _ _ h
    | otherException m =>
      rw [hA] at h
      exact ih _ _ h

/-- The space-only `replace` of `clean_password` is precisely a filter
removing the space character. -/
theorem replaceAllAux_space (fuel : Nat) (s : PyStr) (hf : s.length ≤ fuel) :
    replaceAllAux " ".data [] fuel s = s.filter (fun c => c != ' ') := by
  induction fuel generalizing s with
  | zero =>
    have hnil : s = [] := List.length_eq_zero.mp (Nat.le_zero.mp hf)
    subst hnil; rfl
  | succ fuel ih =>
    cases s with
    | nil => rfl
    | cons c rest =>
      have hr : rest.length ≤ fuel := by
        simpa using Nat.lt_succ_iff.mp (Nat.lt_of_lt_of_le (by simp) hf)
      simp only [replaceAllAux]
      by_cases hc : c = ' '
      · subst hc
        rw [if_pos (by simp [List.isPrefixOf])]
        simpa [List.filter] using ih rest hr
      · rw [if_neg (by simp [List.isPrefixOf, Ne.symm hc])]
        have hb : (c != ' ') = true := by simp [hc]
        simp [List.filter, hb, ih rest hr]

/-! ## Claim theorems -/

/-- Claim C1, counterexample: when the relay refuses ALL recipients
(`smtplib.SMTPRecipientsRefused`), `SMTPClient.send` on an open
connection does NOT raise — it returns a soft result dict with
`success = false`, contradicting the claim that this case surfaces an
exception. -/
theorem C1_allRecipientsRefused_soft_result :
    (SMTPClient.send true
        (.recipientsRefused [("a@b.co".data, 550, "denied".data)]) ["a@b.co".data]).isOk
      = true ∧
    softSuccess (SMTPClient.send true
        (.recipientsRefused [("a@b.co".data, 550, "denied".data)]) ["a@b.co".data])
      = false := by
  decide

/-- Claim C1 as amended: on an open connection a refused sender address
and a data-level error surface as `SMTPClientError` exceptions, but an
all-recipients-refused outcome returns the soft result
`success = false` with message "All recipients were refused" instead of
raising. -/
theorem C1_send_error_surfacing (recipients : List PyStr) :
    (∀ (code : Nat) (err sender : PyStr),
        (SMTPClient.send true (.senderRefused code err sender) recipients).isOk = false) ∧
    (∀ (code : Nat) (err : PyStr),
        (SMTPClient.send true (.dataError code err) recipients).isOk = false) ∧
    (∀ rs, SMTPClient.send true (.recipientsRefused rs) recipients =
        .ok { success := false, errors := some rs,
              message := "All recipients were refused".data }) :=
  ⟨fun _ _ _ => rfl, fun _ _ => rfl, fun _ => rfl⟩

/-- Claim C2, counterexample: the bcc address `"m, y"` is not a
substring of any single to address, of the sender, or of the subject,
yet it does occur in a header value of the built message, because the
To header is the `", "`-join of the to list and the needle spans the
join separator. -/
theorem C2_bcc_join_leak :
    pyInStr "m, y".data "x@a.com".data = false ∧
    pyInStr "m, y".data "y@b.com".data = false ∧
    pyInStr "m, y".data "s@x.co".data = false ∧
    pyInStr "m, y".data "hi".data = false ∧
    ((headersOf (MessageBuilder.build "tpl".data "s@x.co".data
        ⟨["x@a.com".data, "y@b.com".data], [], ["m, y".data]⟩
        "hi".data "body".data [] [] none)).any
      (fun kv => pyInStr "m, y".data kv.2) = true) := by
  decide

/-- Claim C2 as amended: for every successful build and every bcc
address `b` that is not a substring of the subject, the sender, the
joined To value, or the joined Cc value, none of the headers the
builder sets is a Bcc header or has a value containing `b`; yet `b` is
in `all_recipients()`, the envelope list handed to delivery. -/
theorem C2_bcc_privacy (template sender : PyStr) (recipients : EmailRecipients)
    (subject html_content : PyStr) (placeholders : List (PyStr × PyStr))
    (attachments : List Attachment) (ptf : Option PyStr) (b : PyStr)
    (hok : (MessageBuilder.build template sender recipients subject html_content
        placeholders attachments ptf).isOk = true)
    (hb : b ∈ recipients.bcc)
    (hsub : pyInStr b subject = false) (hsend : pyInStr b sender = false)
    (hto : pyInStr b (joinCommaSpace recipients.to) = false)
    (hcc : pyInStr b (joinCommaSpace recipients.cc) = false) :
    ((headersOf (MessageBuilder.build template sender recipients subject html_content
        placeholders attachments ptf)).all
      (fun kv => !(kv.1 == "Bcc".data) && !(pyInStr b kv.2)) = true) ∧
    b ∈ recipients.all_recipients := by
  have hS : (("Subject".data : PyStr) == "Bcc".data) = false := by decide
  have hF : (("From".data : PyStr) == "Bcc".data) = false := by decide
  have hT : (("To".data : PyStr) == "Bcc".data) = false := by decide
  have hC : (("Cc".data : PyStr) == "Bcc".data) = false := by decide
  refine ⟨?_, by simp [EmailRecipients.all_recipients, hb]⟩
  simp only [MessageBuilder.build] at hok ⊢
  split_ifs at hok ⊢ with h hcce hatt
  all_goals
    simp_all [Except.isOk, Except.toBool, headersOf, List.all_append, hS, hF, hT, hC]

/-- Claim C2 witness: a concrete successful build where the bcc address
appears in no header value but is in the envelope recipient list. -/
theorem C2_bcc_privacy_witness :
    ((headersOf (MessageBuilder.build "tpl".data "s@x.co".data
        ⟨["x@a.com".data], [], ["z@y.co".data]⟩ "hi".data "body".data [] [] none)).all
      (fun kv => !(kv.1 == "Bcc".data) && !(pyInStr "z@y.co".data kv.2)) = true) ∧
    "z@y.co".data ∈
      (⟨["x@a.com".data], [], ["z@y.co".data]⟩ : EmailRecipients).all_recipients := by
  exact C2_bcc_privacy "tpl".data "s@x.co".data ⟨["x@a.com".data], [], ["z@y.co".data]⟩
    "hi".data "body".data [] [] none "z@y.co".data
    (by decide) (by decide) (by decide) (by decide) (by decide) (by decide)

/-- Claim C3, counterexample: a build with BCC-only recipients
(`to = []`, `cc = []`, `bcc` non-empty) SUCCEEDS — `has_recipients()`
is true for a non-empty bcc, so no `MessageBuilderError` is raised,
contradicting the claim. -/
theorem C3_bcc_only_build_succeeds :
    (MessageBuilder.build "tpl".data "s@x.co".data
        ⟨[], [], ["z@y.co".data]⟩ "hi".data "body".data [] [] none).isOk = true := by
  decide

/-- Claim C3 as amended: given a loaded template, `MessageBuilder.build`
fails with a build error exactly when to, cc, AND bcc are all empty; in
particular BCC-only builds succeed. -/
theorem C3_build_error_iff_no_recipients (template sender : PyStr)
    (recipients : EmailRecipients) (subject html_content : PyStr)
    (placeholders : List (PyStr × PyStr)) (attachments : List Attachment)
    (ptf : Option PyStr) :
    (MessageBuilder.build template sender recipients subject html_content
        placeholders attachments ptf).isOk = false ↔
      (recipients.to = [] ∧ recipients.cc = [] ∧ recipients.bcc = []) := by
  have hsplit : (MessageBuilder.build template sender recipients subject html_content
      placeholders attachments ptf).isOk = recipients.has_recipients := by
    simp only [MessageBuilder.build]
    split_ifs with h hatt <;> simp_all [Except.isOk, Except.toBool]
  rw [hsplit]
  simp [EmailRecipients.has_recipients, List.isEmpty_iff, and_assoc]

/-- Claim C4: with `max_retries = 2`, two generic transient
`SMTPClientError` failures followed by a successful attempt yield
overall success after exactly 3 attempts, while an authentication
failure stops after exactly 1 attempt with immediate failure. -/
theorem C4_retry_policy (recipients : EmailRecipients) :
    (∀ (attempts : Nat → AttemptOutcome) (m0 m1 ms : PyStr),
        attempts 0 = .smtpClientError m0 → pyInStr authFailedNeedle m0 = false →
        attempts 1 = .smtpClientError m1 → pyInStr authFailedNeedle m1 = false →
        attempts 2 = .result true ms →
        send_email_robust_delivery attempts recipients 2 =
          ((true, mkSuccessMsg recipients.all_recipients.length), 3)) ∧
    (∀ (attempts : Nat → AttemptOutcome) (m : PyStr),
        (∀ i, attempts i = .smtpClientError m) →
        pyInStr authFailedNeedle m = true →
        send_email_robust_delivery attempts recipients 2 = ((false, m), 1)) := by
  constructor
  · intro attempts m0 m1 ms h0 ha0 h1 ha1 h2
    show sendRetryLoop attempts recipients.all_recipients.length 2 0 (2 + 1) [] = _
    rw [sendRetryLoop_succ, h0]
    simp only [ha0, Bool.false_eq_true, if_false]
    rw [sendRetryLoop_succ, h1]
    simp only [ha1, Bool.false_eq_true, if_false]
    rw [sendRetryLoop_succ, h2]
  · intro attempts m hall ha
    show sendRetryLoop attempts recipients.all_recipients.length 2 0 (2 + 1) [] = _
    rw [sendRetryLoop_succ, hall 0]
    simp only [ha, if_true]

/-- Claim C4 witness: concrete stubs — fail twice then succeed gives
success in 3 attempts; always-auth-failure stops after 1 attempt. -/
theorem C4_retry_policy_witness :
    send_email_robust_delivery
      (fun i => if i < 2 then .smtpClientError "SMTP connection error: boom".data
                else .result true "ok".data)
      ⟨["a@b.co".data], [], []⟩ 2 = ((true, mkSuccessMsg 1), 3) ∧
    send_email_robust_delivery
      (fun _ => .smtpClientError "Authentication failed. Verify your email.".data)
      ⟨["a@b.co".data], [], []⟩ 2 =
      ((false, "Authentication failed. Verify your email.".data), 1) := by
  constructor
  · exact (C4_retry_policy ⟨["a@b.co".data], [], []⟩).1
      (fun i => if i < 2 then .smtpClientError "SMTP connection error: boom".data
                else .result true "ok".data)
      "SMTP connection error: boom".data "SMTP connection error: boom".data "ok".data
      rfl (by decide) rfl (by decide) rfl
  · exact (C4_retry_policy ⟨["a@b.co".data], [], []⟩).2
      (fun _ => .smtpClientError "Authentication failed. Verify your email.".data)
      "Authentication failed. Verify your email.".data (fun _ => rfl) (by decide)

/-- Claim C5, counterexample: with a duplicated recipient the success
message reports 2 — the length of `to + cc + bcc` with duplicates —
while the count of distinct recipients is 1, and no "1" occurs in the
message; the claim that the message carries the DISTINCT count is
false. -/
theorem C5_duplicate_count_message :
    send_email_robust_delivery (fun _ => .result true "sent".data)
        ⟨["a@b.co".data, "a@b.co".data], [], []⟩ 2 =
      ((true, "Email sent successfully to 2 recipient(s)".data), 1) ∧
    distinctRecipientCount ⟨["a@b.co".data, "a@b.co".data], [], []⟩ = 1 ∧
    pyInStr "1".data "Email sent successfully to 2 recipient(s)".data = false := by
  decide

/-- Claim C5 as amended: on soft send-level success the reported
message contains the count of ALL recipients — the length of
`to + cc + bcc`, duplicates counted — not the distinct count. -/
theorem C5_success_message_total_count (attempts : Nat → AttemptOutcome)
    (recipients : EmailRecipients) (maxRetries : Nat)
    (h : (send_email_robust_delivery attempts recipients maxRetries).1.1 = true) :
    (send_email_robust_delivery attempts recipients maxRetries).1.2 =
        mkSuccessMsg recipients.all_recipients.length ∧
    pyInStr (Nat.toDigits 10 recipients.all_recipients.length)
        (send_email_robust_delivery attempts recipients maxRetries).1.2 = true := by
  have hmsg : (send_email_robust_delivery attempts recipients maxRetries).1.2 =
      mkSuccessMsg recipients.all_recipients.length :=
    sendRetryLoop_success_msg attempts recipients.all_recipients.length
      maxRetries (maxRetries + 1) 0 [] h
  refine ⟨hmsg, ?_⟩
  rw [hmsg]
  show pyInStr _ ("Email sent successfully to ".data
    ++ Nat.toDigits 10 recipients.all_recipients.length ++ " recipient(s)".data) = true
  rw [List.append_assoc]
  exact pyInStr_append_self _ _ _

/-- Claim C5 witness: a concrete successful delivery whose message is
the success message for the single recipient. -/
theorem C5_success_message_total_count_witness :
    (send_email_robust_delivery (fun _ => .result true "ok".data)
        ⟨["a@b.co".data], [], []⟩ 2).1.2 = mkSuccessMsg 1 ∧
    pyInStr (Nat.toDigits 10 1)
      (send_email_robust_delivery (fun _ => .result true "ok".data)
        ⟨["a@b.co".data], [], []⟩ 2).1.2 = true := by
  exact C5_success_message_total_count (fun _ => .result true "ok".data)
    ⟨["a@b.co".data], [], []⟩ 2 (by decide)

/-- Claim C6, counterexample: the cleaning applied to the app-password
removes only space characters, so a tab survives, contradicting the
claim that EVERY whitespace character is removed. -/
theorem C6_tab_survives_cleaning :
    clean_password "ab\tcd".data ≠ stripAllWhitespace "ab\tcd".data ∧
    '\t' ∈ clean_password "ab\tcd".data := by
  decide

/-- Claim C6 as amended: the credential used for SMTP authentication is
the supplied app-password with every SPACE character (U+0020) removed;
other whitespace characters are preserved. -/
theorem C6_clean_password_removes_spaces (p : PyStr) :
    clean_password p = p.filter (fun c => c != ' ') := by
  unfold clean_password replaceAll
  exact replaceAllAux_space p.length p le_rfl

/-- Claim C7, counterexample: `is_valid_email` strips its input first,
so the address `" a@bb.cc"` (leading space) validates although, read
literally on the unstripped string as the claim does, its local part
`" a"` is not made of atom characters. -/
theorem C7_unstripped_address :
    is_valid_email " a@bb.cc".data = true ∧
    claimedEmailCheck " a@bb.cc".data = false := by
  decide

/-- Claim C7 as amended: `is_valid_email A` is true iff the claimed
characterisation — exactly one `@`, length in [3,254], local part
length in [1,64], domain length at least 3, and the atom/label
grammar of the source regex — holds of A after stripping surrounding
whitespace; and every address in the valid list of
`validate_email_list` / `parse_email_input` re-validates alone. -/
theorem C7_email_validation :
    (∀ s : PyStr, is_valid_email s = claimedEmailCheck (pyStrip s)) ∧
    (∀ (s : PyStr) (sep : Char) (e : PyStr),
        e ∈ (validate_email_list s sep).1 → is_valid_email e = true) ∧
    (∀ (s e : PyStr), e ∈ (parse_email_input s).1 → is_valid_email e = true) :=
  ⟨is_valid_email_eq_claimed, mem_validate_email_list_valid, mem_parse_email_input_valid⟩

/-- Claim C7 witness: concrete addresses from parsed lists
re-validate. -/
theorem C7_email_validation_witness :
    is_valid_email "a@b.com".data = true ∧ is_valid_email "c@d.org".data = true := by
  constructor
  · exact C7_email_validation.2.1 "a@b.com, bad".data ',' "a@b.com".data (by decide)
  · exact C7_email_validation.2.2 "a@b.com, bad, c@d.org".data "c@d.org".data (by decide)

/-- Claim C8: `validate_attachment_size` rejects exactly the byte
lengths above `25 * 1024 * 1024`, and a 26 MiB input is rejected with
a message citing "26.0MB" and the configured 25MB limit. -/
theorem C8_attachment_size_limit :
    (∀ n : Nat, (validate_attachment_size n).1 = false ↔ 25 * 1024 * 1024 < n) ∧
    validate_attachment_size (26 * 1024 * 1024) =
      (false, some "File size (26.0MB) exceeds limit (25MB)".data) := by
  constructor
  · intro n
    simp only [validate_attachment_size]
    split_ifs with h
    · simpa [MAX_ATTACHMENT_SIZE_MB] using h
    · simp only [MAX_ATTACHMENT_SIZE_MB] at h
      simp
      omega
  · decide

/-- Claim C9, counterexample: when `quit()` raises something that is
not an `smtplib.SMTPException`, the exception escapes `disconnect` —
so "never raises, regardless of any error" is false — although the
connection handle is still released by the `finally`. -/
theorem C9_non_smtp_teardown_error_escapes :
    SMTPClient.disconnect (some (.otherError "connection reset by peer".data)) =
      (none, some "connection reset by peer".data) := by
  decide

/-- Claim C9 as amended: `disconnect` always releases the connection
handle; with no live connection it is a no-op; it swallows
`smtplib.SMTPException` teardown errors (and raises nothing on a clean
QUIT); only a non-SMTP exception from `quit()` can escape. -/
theorem C9_disconnect_behaviour (connection : Option QuitBehavior) :
    (SMTPClient.disconnect connection).1 = none ∧
    (connection = none → SMTPClient.disconnect connection = (none, none)) ∧
    (∀ m, connection = some (.smtpError m) → (SMTPClient.disconnect connection).2 = none) ∧
    (connection = some .quitOk → (SMTPClient.disconnect connection).2 = none) ∧
    (∀ m, (SMTPClient.disconnect connection).2 = some m →
        connection = some (.otherError m)) := by
  rcases connection with _ | (_ | m | m) <;> simp [SMTPClient.disconnect]

/-- Claim C9 witness: a concrete SMTP teardown error is swallowed and
the handle released. -/
theorem C9_disconnect_behaviour_witness :
    (SMTPClient.disconnect (some (.smtpError "QUIT failed".data))).1 = none ∧
    (SMTPClient.disconnect (some (.smtpError "QUIT failed".data))).2 = none := by
  have h := C9_disconnect_behaviour (some (.smtpError "QUIT failed".data))
  exact ⟨h.1, h.2.2.1 "QUIT failed".data rfl⟩

/-- Claim C10: in every successful build a Cc header is present iff
`recipients.cc` is non-empty, while a To header is always present —
with the empty string as its value when `recipients.to` is empty. -/
theorem C10_to_cc_headers (template sender : PyStr) (recipients : EmailRecipients)
    (subject html_content : PyStr) (placeholders : List (PyStr × PyStr))
    (attachments : List Attachment) (ptf : Option PyStr)
    (hok : (MessageBuilder.build template sender recipients subject html_content
        placeholders attachments ptf).isOk = true) :
    ("To".data, joinCommaSpace recipients.to) ∈
        headersOf (MessageBuilder.build template sender recipients subject html_content
          placeholders attachments ptf) ∧
    ((headersOf (MessageBuilder.build template sender recipients subject html_content
        placeholders attachments ptf)).any (fun kv => kv.1 == "Cc".data)
      = !recipients.cc.isEmpty) ∧
    (recipients.to = [] →
      ("To".data, ([] : PyStr)) ∈
        headersOf (MessageBuilder.build template sender recipients subject html_content
          placeholders attachments ptf)) := by
  have hS : (("Subject".data : PyStr) == "Cc".data) = false := by decide
  have hF : (("From".data : PyStr) == "Cc".data) = false := by decide
  have hT : (("To".data : PyStr) == "Cc".data) = false := by decide
  have hC : (("Cc".data : PyStr) == "Cc".data) = true := by decide
  simp only [MessageBuilder.build] at hok ⊢
  split_ifs at hok ⊢ with h hcc hatt
  all_goals simp_all [Except.isOk, Except.toBool, headersOf, List.any_append, hS, hF, hT, hC]
  all_goals (intro hto; rfl)

/-- Claim C10 witness: a BCC-less build with empty to and non-empty cc
has an empty-valued To header and a Cc header. -/
theorem C10_to_cc_headers_witness :
    ("To".data, ([] : PyStr)) ∈
      headersOf (MessageBuilder.build "tpl".data "s@x.co".data
        ⟨[], ["c@d.co".data], []⟩ "hi".data "body".data [] [] none) ∧
    ((headersOf (MessageBuilder.build "tpl".data "s@x.co".data
        ⟨[], ["c@d.co".data], []⟩ "hi".data "body".data [] [] none)).any
      (fun kv => kv.1 == "Cc".data) = true) := by
  have h := C10_to_cc_headers "tpl".data "s@x.co".data ⟨[], ["c@d.co".data], []⟩
    "hi".data "body".data [] [] none (by decide)
  exact ⟨h.2.2 rfl, h.2.1⟩
